import Mathlib

/-!
Shallow embedding of the pin layer of the pca9535 GPIO-expander driver
(src/pin.rs) and proofs about it.

The device is modelled as a state holding the eight 8-bit registers, a
fault-injection oracle deciding which register access fails, an access
counter, and a trace of the accesses performed so far.  Registers hold
Nat values; all written values stay below 256 whenever the read values
do, because every pin index is below 8.
-/

namespace Pca9535

/-- The two 8-pin banks of the expander. -/
inductive GPIOBank
  | Bank0
  | Bank1
deriving DecidableEq

/-- The eight addressable registers of the device, four per bank. -/
inductive Register
  | InputPort0
  | InputPort1
  | OutputPort0
  | OutputPort1
  | PolarityInversionPort0
  | PolarityInversionPort1
  | ConfigurationPort0
  | ConfigurationPort1
deriving DecidableEq

/-- Input-polarity setting of an input pin. -/
inductive Polarity
  | Normal
  | Inverse
deriving DecidableEq

/-- Logic level passed to output-pin operations. -/
inductive PinState
  | High
  | Low
deriving DecidableEq

/-- One device register access, as recorded in the device trace. -/
inductive DevAction
  | readAct (register : Register)
  | writeAct (register : Register) (value : Nat)
deriving DecidableEq

/-- Modelled from the spec: the device capability (section 4.2 of the
specification; the Expander trait lives outside src/).  It exposes
read_byte and write_byte over the eight registers; either may fail with a
device-specific error.  The model adds a fault-injection oracle failAt
indexed by the access counter step, and a trace of the successful
accesses, so that ordering and framing claims can be stated. -/
structure DevState (E : Type) where
  regs : Register → Nat
  failAt : Nat → Option E
  step : Nat
  trace : List DevAction

/-- Modelled from the spec: read_byte returns the current byte of a
register, or the device error scheduled for this access. -/
def read_byte {E : Type} (d : DevState E) (register : Register) :
    Except E Nat × DevState E :=
  match d.failAt d.step with
  | some e => (Except.error e, { d with step := d.step + 1 })
  | none =>
      (Except.ok (d.regs register),
        { d with
            step := d.step + 1
            trace := d.trace ++ [DevAction.readAct register] })

/-- Modelled from the spec: write_byte stores a byte into a register
atomically, or fails with the device error scheduled for this access
(in which case the register keeps its old value). -/
def write_byte {E : Type} (d : DevState E) (register : Register) (value : Nat) :
    Except E Unit × DevState E :=
  match d.failAt d.step with
  | some e => (Except.error e, { d with step := d.step + 1 })
  | none =>
      (Except.ok (),
        { d with
            regs := fun r => if r = register then value else d.regs r
            step := d.step + 1
            trace := d.trace ++ [DevAction.writeAct register value] })

/-- Outcome of a pin constructor: the assert on the pin index may fire
(a contract violation, not a recoverable error), a device access may
fail, or the pin is produced. -/
inductive Outcome (E A : Type)
  | assertFailed
  | err (e : E)
  | ok (a : A)
deriving DecidableEq

/-- Bank-to-register selection for the configuration registers, as
matched inline in src/pin.rs. -/
def configurationRegister : GPIOBank → Register
  | GPIOBank.Bank0 => Register.ConfigurationPort0
  | GPIOBank.Bank1 => Register.ConfigurationPort1

/-- Bank-to-register selection for the output-port registers. -/
def outputRegister : GPIOBank → Register
  | GPIOBank.Bank0 => Register.OutputPort0
  | GPIOBank.Bank1 => Register.OutputPort1

/-- Bank-to-register selection for the input-port registers. -/
def inputRegister : GPIOBank → Register
  | GPIOBank.Bank0 => Register.InputPort0
  | GPIOBank.Bank1 => Register.InputPort1

/-- Bank-to-register selection for the polarity-inversion registers. -/
def polarityRegister : GPIOBank → Register
  | GPIOBank.Bank0 => Register.PolarityInversionPort0
  | GPIOBank.Bank1 => Register.PolarityInversionPort1

/-- An input pin: its bank and its bit index within the bank.  The Rc
RefCell reference to the shared expander is modelled by passing the
device state explicitly to every operation. -/
structure ExpanderInputPin where
  bank : GPIOBank
  pin : Nat

/-- An output pin: its bank and its bit index within the bank. -/
structure ExpanderOutputPin where
  bank : GPIOBank
  pin : Nat

/-- ExpanderInputPin::new: assert the index is below 8, then
read-modify-write the bank's configuration register, setting the bit at
the index (input direction). -/
def ExpanderInputPin.new {E : Type} (d : DevState E) (bank : GPIOBank)
    (pin : Nat) : Outcome E ExpanderInputPin × DevState E :=
  if pin < 8 then
    match read_byte d (configurationRegister bank) with
    | (Except.error e, d1) => (Outcome.err e, d1)
    | (Except.ok reg_val, d1) =>
        match write_byte d1 (configurationRegister bank)
            (reg_val ||| (0x01 <<< pin)) with
        | (Except.error e, d2) => (Outcome.err e, d2)
        | (Except.ok _, d2) => (Outcome.ok { bank := bank, pin := pin }, d2)
  else
    (Outcome.assertFailed, d)

/-- ExpanderInputPin::set_polarity: read-modify-write the bank's
polarity-inversion register, clearing the bit for Normal and setting it
for Inverse.  The complement of the u8 mask is taken within 8 bits. -/
def ExpanderInputPin.set_polarity {E : Type} (p : ExpanderInputPin)
    (polarity : Polarity) (d : DevState E) : Except E Unit × DevState E :=
  match read_byte d (polarityRegister p.bank) with
  | (Except.error e, d1) => (Except.error e, d1)
  | (Except.ok reg_val, d1) =>
      match
        (if polarity = Polarity.Normal then
          write_byte d1 (polarityRegister p.bank)
            (reg_val &&& (255 ^^^ (0x01 <<< p.pin)))
        else
          write_byte d1 (polarityRegister p.bank)
            (reg_val ||| (0x01 <<< p.pin))) with
      | (Except.error e, d2) => (Except.error e, d2)
      | (Except.ok _, d2) => (Except.ok (), d2)

/-- ExpanderOutputPin::new: assert the index is below 8, seed the bank's
output register with the requested level for the bit, then clear the
bit in the bank's configuration register (output direction).  The
output write comes first. -/
def ExpanderOutputPin.new {E : Type} (d : DevState E) (bank : GPIOBank)
    (pin : Nat) (state : PinState) : Outcome E ExpanderOutputPin × DevState E :=
  if pin < 8 then
    match read_byte d (outputRegister bank) with
    | (Except.error e, d1) => (Outcome.err e, d1)
    | (Except.ok reg_val, d1) =>
        match
          (if state = PinState.High then
            write_byte d1 (outputRegister bank) (reg_val ||| (0x01 <<< pin))
          else
            write_byte d1 (outputRegister bank)
              (reg_val &&& (255 ^^^ (0x01 <<< pin)))) with
        | (Except.error e, d2) => (Outcome.err e, d2)
        | (Except.ok _, d2) =>
            match read_byte d2 (configurationRegister bank) with
            | (Except.error e, d3) => (Outcome.err e, d3)
            | (Except.ok reg_val2, d3) =>
                match write_byte d3 (configurationRegister bank)
                    (reg_val2 &&& (255 ^^^ (0x01 <<< pin))) with
                | (Except.error e, d4) => (Outcome.err e, d4)
                | (Except.ok _, d4) =>
                    (Outcome.ok { bank := bank, pin := pin }, d4)
  else
    (Outcome.assertFailed, d)

/-- InputPin::is_high for ExpanderInputPin: read the bank's input
register and return the bit at the pin index. -/
def ExpanderInputPin.is_high {E : Type} (p : ExpanderInputPin)
    (d : DevState E) : Except E Bool × DevState E :=
  match read_byte d (inputRegister p.bank) with
  | (Except.error e, d1) => (Except.error e, d1)
  | (Except.ok reg_val, d1) =>
      match (reg_val >>> p.pin) &&& 1 with
      | 1 => (Except.ok true, d1)
      | _ => (Except.ok false, d1)

/-- InputPin::is_low for ExpanderInputPin: read the bank's input
register and return the negation of the bit at the pin index. -/
def ExpanderInputPin.is_low {E : Type} (p : ExpanderInputPin)
    (d : DevState E) : Except E Bool × DevState E :=
  match read_byte d (inputRegister p.bank) with
  | (Except.error e, d1) => (Except.error e, d1)
  | (Except.ok reg_val, d1) =>
      match (reg_val >>> p.pin) &&& 1 with
      | 1 => (Except.ok false, d1)
      | _ => (Except.ok true, d1)

/-- IoPin::into_input_pin on an input pin: the identity, no register
access. -/
def ExpanderInputPin.into_input_pin {E : Type} (p : ExpanderInputPin)
    (d : DevState E) : Except E ExpanderInputPin × DevState E :=
  (Except.ok p, d)

/-- IoPin::into_output_pin on an input pin: seed the bank's output
register with the requested level for the bit, then clear the bit in
the configuration register.  The output write comes first. -/
def ExpanderInputPin.into_output_pin {E : Type} (p : ExpanderInputPin)
    (state : PinState) (d : DevState E) :
    Except E ExpanderOutputPin × DevState E :=
  match read_byte d (outputRegister p.bank) with
  | (Except.error e, d1) => (Except.error e, d1)
  | (Except.ok reg_val, d1) =>
      match
        (if state = PinState.High then
          write_byte d1 (outputRegister p.bank) (reg_val ||| (0x01 <<< p.pin))
        else
          write_byte d1 (outputRegister p.bank)
            (reg_val &&& (255 ^^^ (0x01 <<< p.pin)))) with
      | (Except.error e, d2) => (Except.error e, d2)
      | (Except.ok _, d2) =>
          match read_byte d2 (configurationRegister p.bank) with
          | (Except.error e, d3) => (Except.error e, d3)
          | (Except.ok reg_val2, d3) =>
              match write_byte d3 (configurationRegister p.bank)
                  (reg_val2 &&& (255 ^^^ (0x01 <<< p.pin))) with
              | (Except.error e, d4) => (Except.error e, d4)
              | (Except.ok _, d4) =>
                  (Except.ok { bank := p.bank, pin := p.pin }, d4)

/-- OutputPin::set_low for ExpanderOutputPin: read-modify-write the
bank's output register, clearing the bit at the pin index. -/
def ExpanderOutputPin.set_low {E : Type} (p : ExpanderOutputPin)
    (d : DevState E) : Except E Unit × DevState E :=
  match read_byte d (outputRegister p.bank) with
  | (Except.error e, d1) => (Except.error e, d1)
  | (Except.ok reg_val, d1) =>
      write_byte d1 (outputRegister p.bank)
        (reg_val &&& (255 ^^^ (0x01 <<< p.pin)))

/-- OutputPin::set_high for ExpanderOutputPin.  The source selects
InputPort0 or InputPort1 here (src/pin.rs lines 242 to 245), not the
output-port register that set_low uses: the read-modify-write is issued
against the bank's input register. -/
def ExpanderOutputPin.set_high {E : Type} (p : ExpanderOutputPin)
    (d : DevState E) : Except E Unit × DevState E :=
  match read_byte d (inputRegister p.bank) with
  | (Except.error e, d1) => (Except.error e, d1)
  | (Except.ok reg_val, d1) =>
      write_byte d1 (inputRegister p.bank) (reg_val ||| (0x01 <<< p.pin))

/-- IoPin::into_input_pin on an output pin: read-modify-write the
bank's configuration register, setting the bit at the pin index. -/
def ExpanderOutputPin.into_input_pin {E : Type} (p : ExpanderOutputPin)
    (d : DevState E) : Except E ExpanderInputPin × DevState E :=
  match read_byte d (configurationRegister p.bank) with
  | (Except.error e, d1) => (Except.error e, d1)
  | (Except.ok reg_val, d1) =>
      match write_byte d1 (configurationRegister p.bank)
          (reg_val ||| (0x01 <<< p.pin)) with
      | (Except.error e, d2) => (Except.error e, d2)
      | (Except.ok _, d2) => (Except.ok { bank := p.bank, pin := p.pin }, d2)

/-- IoPin::into_output_pin on an output pin: re-program the bank's
output register for the bit per the requested state; the configuration
register is left untouched. -/
def ExpanderOutputPin.into_output_pin {E : Type} (p : ExpanderOutputPin)
    (state : PinState) (d : DevState E) :
    Except E ExpanderOutputPin × DevState E :=
  match read_byte d (outputRegister p.bank) with
  | (Except.error e, d1) => (Except.error e, d1)
  | (Except.ok reg_val, d1) =>
      match
        (if state = PinState.High then
          write_byte d1 (outputRegister p.bank) (reg_val ||| (0x01 <<< p.pin))
        else
          write_byte d1 (outputRegister p.bank)
            (reg_val &&& (255 ^^^ (0x01 <<< p.pin)))) with
      | (Except.error e, d2) => (Except.error e, d2)
      | (Except.ok _, d2) => (Except.ok p, d2)

/-- The bit an output-pin state programs: 1 for High, 0 for Low. -/
def pinStateBit : PinState → Bool
  | PinState.High => true
  | PinState.Low => false

/-- The byte an output-seeding write stores, given the requested state,
the byte read and the pin index: set the bit for High, clear it for
Low. -/
def seedVal (s : PinState) (v i : Nat) : Nat :=
  if s = PinState.High then v ||| (0x01 <<< i)
  else v &&& (255 ^^^ (0x01 <<< i))

/-- The byte a polarity write stores, given the requested polarity, the
byte read and the pin index: clear the bit for Normal, set it for
Inverse. -/
def polVal (q : Polarity) (v i : Nat) : Nat :=
  if q = Polarity.Normal then v &&& (255 ^^^ (0x01 <<< i))
  else v ||| (0x01 <<< i)

/-- A fault-free concrete device used to instantiate theorems: every
register reads 0xF0 and no access fails. -/
def dev0 : DevState Unit :=
  { regs := fun _ => 0xF0
    failAt := fun _ => none
    step := 0
    trace := [] }

/-- A concrete device whose every access fails, used to instantiate the
error-propagation theorems. -/
def devFail : DevState Unit :=
  { regs := fun _ => 0xF0
    failAt := fun _ => some ()
    step := 0
    trace := [] }

lemma testBit_one_shl (i j : Nat) : ((0x01 <<< i) : Nat).testBit j = decide (i = j) := by
  show ((1 <<< i : Nat)).testBit j = decide (i = j)
  rw [Nat.one_shiftLeft, Nat.testBit_two_pow]

lemma testBit_or_mask (v i j : Nat) :
    (v ||| (0x01 <<< i)).testBit j = (v.testBit j || decide (i = j)) := by
  rw [Nat.testBit_lor, testBit_one_shl]

lemma testBit_255 (j : Nat) : (255 : Nat).testBit j = decide (j < 8) := by
  have h : (255 : Nat) = 2 ^ 8 - 1 := by norm_num
  rw [h, Nat.testBit_two_pow_sub_one]

lemma testBit_and_notMask (v i j : Nat) (hj : j < 8) :
    (v &&& (255 ^^^ (0x01 <<< i))).testBit j = (v.testBit j && !decide (i = j)) := by
  rw [Nat.testBit_land, Nat.testBit_xor, testBit_255, testBit_one_shl]
  simp [hj]

lemma shiftRight_and_one (v i : Nat) :
    (v >>> i) &&& 1 = if v.testBit i then 1 else 0 := by
  rw [Nat.and_one_is_mod, Nat.shiftRight_eq_div_pow]
  rcases Nat.mod_two_eq_zero_or_one (v / 2 ^ i) with h | h <;>
    simp [Nat.testBit_to_div_mod, h]

lemma inputPin_new_ok {E : Type} {d d' : DevState E} {b : GPIOBank} {i : Nat}
    {p : ExpanderInputPin} (hi : i < 8)
    (h : ExpanderInputPin.new d b i = (Outcome.ok p, d')) :
    d.failAt d.step = none ∧ d.failAt (d.step + 1) = none ∧
    p = { bank := b, pin := i } ∧
    d' = { d with
             regs := fun r => if r = configurationRegister b then
                        d.regs (configurationRegister b) ||| (0x01 <<< i)
                      else d.regs r
             step := d.step + 1 + 1
             trace := d.trace ++
                      [DevAction.readAct (configurationRegister b),
                       DevAction.writeAct (configurationRegister b)
                         (d.regs (configurationRegister b) ||| (0x01 <<< i))] } := by
  rcases h0 : d.failAt d.step with _ | e
  · rcases h1 : d.failAt (d.step + 1) with _ | e
    · simp only [ExpanderInputPin.new, read_byte, write_byte, if_pos hi, h0, h1,
        Prod.mk.injEq, Outcome.ok.injEq] at h
      exact ⟨rfl, rfl, h.1.symm, by rw [← h.2]; simp⟩
    · simp [ExpanderInputPin.new, read_byte, write_byte, if_pos hi, h0, h1] at h
  · simp [ExpanderInputPin.new, read_byte, if_pos hi, h0] at h

lemma ite_seed_write {E : Type} (d1 : DevState E) (reg : Register) (v i : Nat)
    (s : PinState) :
    (if s = PinState.High then write_byte d1 reg (v ||| (0x01 <<< i))
     else write_byte d1 reg (v &&& (255 ^^^ (0x01 <<< i)))) =
    write_byte d1 reg (seedVal s v i) := by
  unfold seedVal
  by_cases h : s = PinState.High <;> simp [h]

lemma ite_pol_write {E : Type} (d1 : DevState E) (reg : Register) (v i : Nat)
    (q : Polarity) :
    (if q = Polarity.Normal then write_byte d1 reg (v &&& (255 ^^^ (0x01 <<< i)))
     else write_byte d1 reg (v ||| (0x01 <<< i))) =
    write_byte d1 reg (polVal q v i) := by
  unfold polVal
  by_cases h : q = Polarity.Normal <;> simp [h]

lemma outputPin_new_ok {E : Type} {d d' : DevState E} {b : GPIOBank} {i : Nat}
    {s : PinState} {q : ExpanderOutputPin} (hi : i < 8)
    (h : ExpanderOutputPin.new d b i s = (Outcome.ok q, d')) :
    q = { bank := b, pin := i } ∧
    d' = { d with
             regs := fun r => if r = configurationRegister b then
                        d.regs (configurationRegister b) &&& (255 ^^^ (0x01 <<< i))
                      else if r = outputRegister b then
                        seedVal s (d.regs (outputRegister b)) i
                      else d.regs r
             step := d.step + 1 + 1 + 1 + 1
             trace := d.trace ++
               [DevAction.readAct (outputRegister b),
                DevAction.writeAct (outputRegister b)
                  (seedVal s (d.regs (outputRegister b)) i),
                DevAction.readAct (configurationRegister b),
                DevAction.writeAct (configurationRegister b)
                  (d.regs (configurationRegister b) &&& (255 ^^^ (0x01 <<< i)))] } := by
  rw [ExpanderOutputPin.new, if_pos hi] at h
  simp only [ite_seed_write] at h
  rcases h0 : d.failAt d.step with _ | e
  · rcases h1 : d.failAt (d.step + 1) with _ | e
    · rcases h2 : d.failAt (d.step + 1 + 1) with _ | e
      · rcases h3 : d.failAt (d.step + 1 + 1 + 1) with _ | e
        · simp only [read_byte, write_byte, h0, h1, h2, h3,
            Prod.mk.injEq, Outcome.ok.injEq] at h
          refine ⟨h.1.symm, ?_⟩
          rw [← h.2]
          cases b <;>
            simp [configurationRegister, outputRegister, List.append_assoc]
        · simp [read_byte, write_byte, h0, h1, h2, h3] at h
      · simp [read_byte, write_byte, h0, h1, h2] at h
    · simp [read_byte, write_byte, h0, h1] at h
  · simp [read_byte, h0] at h

lemma set_polarity_ok {E : Type} {p : ExpanderInputPin} {pol : Polarity}
    {d d' : DevState E} (h : p.set_polarity pol d = (Except.ok (), d')) :
    d' = { d with
             regs := fun r => if r = polarityRegister p.bank then
                        polVal pol (d.regs (polarityRegister p.bank)) p.pin
                      else d.regs r
             step := d.step + 1 + 1
             trace := d.trace ++
               [DevAction.readAct (polarityRegister p.bank),
                DevAction.writeAct (polarityRegister p.bank)
                  (polVal pol (d.regs (polarityRegister p.bank)) p.pin)] } := by
  rw [ExpanderInputPin.set_polarity] at h
  simp only [ite_pol_write] at h
  rcases h0 : d.failAt d.step with _ | e
  · rcases h1 : d.failAt (d.step + 1) with _ | e
    · simp only [read_byte, write_byte, h0, h1, Prod.mk.injEq, true_and] at h
      rw [← h]
      simp
    · simp [read_byte, write_byte, h0, h1] at h
  · simp [read_byte, h0] at h

lemma into_output_pin_ok {E : Type} {p : ExpanderInputPin} {s : PinState}
    {d d' : DevState E} {q : ExpanderOutputPin}
    (h : p.into_output_pin s d = (Except.ok q, d')) :
    q = { bank := p.bank, pin := p.pin } ∧
    d' = { d with
             regs := fun r => if r = configurationRegister p.bank then
                        d.regs (configurationRegister p.bank) &&&
                          (255 ^^^ (0x01 <<< p.pin))
                      else if r = outputRegister p.bank then
                        seedVal s (d.regs (outputRegister p.bank)) p.pin
                      else d.regs r
             step := d.step + 1 + 1 + 1 + 1
             trace := d.trace ++
               [DevAction.readAct (outputRegister p.bank),
                DevAction.writeAct (outputRegister p.bank)
                  (seedVal s (d.regs (outputRegister p.bank)) p.pin),
                DevAction.readAct (configurationRegister p.bank),
                DevAction.writeAct (configurationRegister p.bank)
                  (d.regs (configurationRegister p.bank) &&&
                    (255 ^^^ (0x01 <<< p.pin)))] } := by
  rw [ExpanderInputPin.into_output_pin] at h
  simp only [ite_seed_write] at h
  rcases h0 : d.failAt d.step with _ | e
  · rcases h1 : d.failAt (d.step + 1) with _ | e
    · rcases h2 : d.failAt (d.step + 1 + 1) with _ | e
      · rcases h3 : d.failAt (d.step + 1 + 1 + 1) with _ | e
        · simp only [read_byte, write_byte, h0, h1, h2, h3,
            Prod.mk.injEq, Except.ok.injEq] at h
          refine ⟨h.1.symm, ?_⟩
          rw [← h.2]
          cases hb : p.bank <;>
            simp [configurationRegister, outputRegister, List.append_assoc]
        · simp [read_byte, write_byte, h0, h1, h2, h3] at h
      · simp [read_byte, write_byte, h0, h1, h2] at h
    · simp [read_byte, write_byte, h0, h1] at h
  · simp [read_byte, h0] at h

lemma out_into_input_pin_ok {E : Type} {p : ExpanderOutputPin}
    {d d' : DevState E} {r : ExpanderInputPin}
    (h : p.into_input_pin d = (Except.ok r, d')) :
    r = { bank := p.bank, pin := p.pin } ∧
    d' = { d with
             regs := fun reg => if reg = configurationRegister p.bank then
                        d.regs (configurationRegister p.bank) ||| (0x01 <<< p.pin)
                      else d.regs reg
             step := d.step + 1 + 1
             trace := d.trace ++
               [DevAction.readAct (configurationRegister p.bank),
                DevAction.writeAct (configurationRegister p.bank)
                  (d.regs (configurationRegister p.bank) ||| (0x01 <<< p.pin))] } := by
  rw [ExpanderOutputPin.into_input_pin] at h
  rcases h0 : d.failAt d.step with _ | e
  · rcases h1 : d.failAt (d.step + 1) with _ | e
    · simp only [read_byte, write_byte, h0, h1, Prod.mk.injEq,
        Except.ok.injEq] at h
      refine ⟨h.1.symm, ?_⟩
      rw [← h.2]
      simp
    · simp [read_byte, write_byte, h0, h1] at h
  · simp [read_byte, h0] at h

lemma out_into_output_pin_ok {E : Type} {p : ExpanderOutputPin} {s : PinState}
    {d d' : DevState E} {q : ExpanderOutputPin}
    (h : p.into_output_pin s d = (Except.ok q, d')) :
    q = p ∧
    d' = { d with
             regs := fun r => if r = outputRegister p.bank then
                        seedVal s (d.regs (outputRegister p.bank)) p.pin
                      else d.regs r
             step := d.step + 1 + 1
             trace := d.trace ++
               [DevAction.readAct (outputRegister p.bank),
                DevAction.writeAct (outputRegister p.bank)
                  (seedVal s (d.regs (outputRegister p.bank)) p.pin)] } := by
  rw [ExpanderOutputPin.into_output_pin] at h
  simp only [ite_seed_write] at h
  rcases h0 : d.failAt d.step with _ | e
  · rcases h1 : d.failAt (d.step + 1) with _ | e
    · simp only [read_byte, write_byte, h0, h1, Prod.mk.injEq,
        Except.ok.injEq] at h
      refine ⟨h.1.symm, ?_⟩
      rw [← h.2]
      simp
    · simp [read_byte, write_byte, h0, h1] at h
  · simp [read_byte, h0] at h

lemma set_low_ok {E : Type} {p : ExpanderOutputPin} {d d' : DevState E}
    (h : p.set_low d = (Except.ok (), d')) :
    d' = { d with
             regs := fun r => if r = outputRegister p.bank then
                        d.regs (outputRegister p.bank) &&&
                          (255 ^^^ (0x01 <<< p.pin))
                      else d.regs r
             step := d.step + 1 + 1
             trace := d.trace ++
               [DevAction.readAct (outputRegister p.bank),
                DevAction.writeAct (outputRegister p.bank)
                  (d.regs (outputRegister p.bank) &&&
                    (255 ^^^ (0x01 <<< p.pin)))] } := by
  rw [ExpanderOutputPin.set_low] at h
  rcases h0 : d.failAt d.step with _ | e
  · rcases h1 : d.failAt (d.step + 1) with _ | e
    · simp only [read_byte, write_byte, h0, h1, Prod.mk.injEq, true_and] at h
      rw [← h]
      simp
    · simp [read_byte, write_byte, h0, h1] at h
  · simp [read_byte, h0] at h

lemma set_high_ok {E : Type} {p : ExpanderOutputPin} {d d' : DevState E}
    (h : p.set_high d = (Except.ok (), d')) :
    d' = { d with
             regs := fun r => if r = inputRegister p.bank then
                        d.regs (inputRegister p.bank) ||| (0x01 <<< p.pin)
                      else d.regs r
             step := d.step + 1 + 1
             trace := d.trace ++
               [DevAction.readAct (inputRegister p.bank),
                DevAction.writeAct (inputRegister p.bank)
                  (d.regs (inputRegister p.bank) ||| (0x01 <<< p.pin))] } := by
  rw [ExpanderOutputPin.set_high] at h
  rcases h0 : d.failAt d.step with _ | e
  · rcases h1 : d.failAt (d.step + 1) with _ | e
    · simp only [read_byte, write_byte, h0, h1, Prod.mk.injEq, true_and] at h
      rw [← h]
      simp
    · simp [read_byte, write_byte, h0, h1] at h
  · simp [read_byte, h0] at h

lemma is_high_ok {E : Type} {p : ExpanderInputPin} {d d' : DevState E} {bv : Bool}
    (h : p.is_high d = (Except.ok bv, d')) :
    bv = (d.regs (inputRegister p.bank)).testBit p.pin ∧
    d' = { d with
             step := d.step + 1
             trace := d.trace ++ [DevAction.readAct (inputRegister p.bank)] } := by
  rw [ExpanderInputPin.is_high] at h
  rcases h0 : d.failAt d.step with _ | e
  · simp only [read_byte, h0] at h
    rcases ht : (d.regs (inputRegister p.bank)).testBit p.pin
    · have hv : (d.regs (inputRegister p.bank) >>> p.pin) &&& 1 = 0 := by
        rw [shiftRight_and_one, ht]
        simp
      rw [hv] at h
      simp only [Prod.mk.injEq, Except.ok.injEq] at h
      exact ⟨h.1.symm, h.2.symm⟩
    · have hv : (d.regs (inputRegister p.bank) >>> p.pin) &&& 1 = 1 := by
        rw [shiftRight_and_one, ht]
        simp
      rw [hv] at h
      simp only [Prod.mk.injEq, Except.ok.injEq] at h
      exact ⟨h.1.symm, h.2.symm⟩
  · simp [read_byte, h0] at h

lemma is_low_ok {E : Type} {p : ExpanderInputPin} {d d' : DevState E} {bv : Bool}
    (h : p.is_low d = (Except.ok bv, d')) :
    bv = !((d.regs (inputRegister p.bank)).testBit p.pin) ∧
    d' = { d with
             step := d.step + 1
             trace := d.trace ++ [DevAction.readAct (inputRegister p.bank)] } := by
  rw [ExpanderInputPin.is_low] at h
  rcases h0 : d.failAt d.step with _ | e
  · simp only [read_byte, h0] at h
    rcases ht : (d.regs (inputRegister p.bank)).testBit p.pin
    · have hv : (d.regs (inputRegister p.bank) >>> p.pin) &&& 1 = 0 := by
        rw [shiftRight_and_one, ht]
        simp
      rw [hv] at h
      simp only [Prod.mk.injEq, Except.ok.injEq] at h
      exact ⟨h.1.symm, h.2.symm⟩
    · have hv : (d.regs (inputRegister p.bank) >>> p.pin) &&& 1 = 1 := by
        rw [shiftRight_and_one, ht]
        simp
      rw [hv] at h
      simp only [Prod.mk.injEq, Except.ok.injEq] at h
      exact ⟨h.1.symm, h.2.symm⟩
  · simp [read_byte, h0] at h

lemma outputRegister_ne_configurationRegister (b : GPIOBank) :
    outputRegister b ≠ configurationRegister b := by
  cases b <;> decide

lemma testBit_or_mask_self (v i : Nat) : (v ||| (0x01 <<< i)).testBit i = true := by
  rw [testBit_or_mask]
  simp

lemma testBit_or_mask_other (v i j : Nat) (hne : j ≠ i) :
    (v ||| (0x01 <<< i)).testBit j = v.testBit j := by
  rw [testBit_or_mask]
  simp [Ne.symm hne]

lemma testBit_and_notMask_self (v i : Nat) (hi : i < 8) :
    (v &&& (255 ^^^ (0x01 <<< i))).testBit i = false := by
  rw [testBit_and_notMask _ _ _ hi]
  simp

lemma testBit_and_notMask_other (v i j : Nat) (hj : j < 8) (hne : j ≠ i) :
    (v &&& (255 ^^^ (0x01 <<< i))).testBit j = v.testBit j := by
  rw [testBit_and_notMask _ _ _ hj]
  simp [Ne.symm hne]

lemma testBit_seedVal_self (s : PinState) (v i : Nat) (hi : i < 8) :
    (seedVal s v i).testBit i = pinStateBit s := by
  cases s
  · rw [show seedVal PinState.High v i = v ||| (0x01 <<< i) from rfl]
    rw [testBit_or_mask_self]
    rfl
  · rw [show seedVal PinState.Low v i = v &&& (255 ^^^ (0x01 <<< i)) from rfl]
    rw [testBit_and_notMask_self v i hi]
    rfl

lemma testBit_seedVal_other (s : PinState) (v i j : Nat) (hj : j < 8)
    (hne : j ≠ i) :
    (seedVal s v i).testBit j = v.testBit j := by
  cases s
  · rw [show seedVal PinState.High v i = v ||| (0x01 <<< i) from rfl]
    exact testBit_or_mask_other v i j hne
  · rw [show seedVal PinState.Low v i = v &&& (255 ^^^ (0x01 <<< i)) from rfl]
    exact testBit_and_notMask_other v i j hj hne

/-- C2: for every bank, index below 8 and prior register contents, a
successful InputPin::new leaves the configuration register with bit i
set, and a successful OutputPin::new leaves the configuration register
with bit i clear and the output register with bit i equal to the
requested state; in both cases every other bit of each written byte
equals the corresponding bit of the value read. -/
theorem constructors_program_registers {E : Type} (d d' : DevState E)
    (b : GPIOBank) (i : Nat) (hi : i < 8) :
    (∀ p, ExpanderInputPin.new d b i = (Outcome.ok p, d') →
      (d'.regs (configurationRegister b)).testBit i = true ∧
      ∀ j, j < 8 → j ≠ i →
        (d'.regs (configurationRegister b)).testBit j =
        (d.regs (configurationRegister b)).testBit j) ∧
    (∀ s q, ExpanderOutputPin.new d b i s = (Outcome.ok q, d') →
      (d'.regs (configurationRegister b)).testBit i = false ∧
      (d'.regs (outputRegister b)).testBit i = pinStateBit s ∧
      ∀ j, j < 8 → j ≠ i →
        (d'.regs (configurationRegister b)).testBit j =
          (d.regs (configurationRegister b)).testBit j ∧
        (d'.regs (outputRegister b)).testBit j =
          (d.regs (outputRegister b)).testBit j) := by
  constructor
  · intro p h
    obtain ⟨-, -, -, hd⟩ := inputPin_new_ok hi h
    have hc : d'.regs (configurationRegister b) =
        d.regs (configurationRegister b) ||| (0x01 <<< i) := by
      rw [hd]
      simp
    rw [hc]
    exact ⟨testBit_or_mask_self _ _,
      fun j hj hne => testBit_or_mask_other _ _ _ hne⟩
  · intro s q h
    obtain ⟨-, hd⟩ := outputPin_new_ok hi h
    have hoc := outputRegister_ne_configurationRegister b
    have hc : d'.regs (configurationRegister b) =
        d.regs (configurationRegister b) &&& (255 ^^^ (0x01 <<< i)) := by
      rw [hd]
      simp
    have ho : d'.regs (outputRegister b) =
        seedVal s (d.regs (outputRegister b)) i := by
      rw [hd]
      simp [hoc]
    rw [hc, ho]
    exact ⟨testBit_and_notMask_self _ _ hi, testBit_seedVal_self s _ i hi,
      fun j hj hne => ⟨testBit_and_notMask_other _ _ _ hj hne,
        testBit_seedVal_other s _ i j hj hne⟩⟩

/-- C2 witness: concrete runs of both constructors on a fault-free
device whose registers all hold 0xF0. -/
theorem constructors_program_registers_witness :
    ((ExpanderInputPin.new dev0 GPIOBank.Bank0 3).2.regs
        (configurationRegister GPIOBank.Bank0)).testBit 3 = true ∧
    ((ExpanderOutputPin.new dev0 GPIOBank.Bank1 0 PinState.Low).2.regs
        (configurationRegister GPIOBank.Bank1)).testBit 0 = false ∧
    ((ExpanderOutputPin.new dev0 GPIOBank.Bank1 0 PinState.Low).2.regs
        (outputRegister GPIOBank.Bank1)).testBit 0 = pinStateBit PinState.Low :=
  ⟨((constructors_program_registers dev0
        (ExpanderInputPin.new dev0 GPIOBank.Bank0 3).2 GPIOBank.Bank0 3
        (by decide)).1 { bank := GPIOBank.Bank0, pin := 3 } rfl).1,
   ((constructors_program_registers dev0
        (ExpanderOutputPin.new dev0 GPIOBank.Bank1 0 PinState.Low).2
        GPIOBank.Bank1 0 (by decide)).2 PinState.Low
        { bank := GPIOBank.Bank1, pin := 0 } rfl).1,
   ((constructors_program_registers dev0
        (ExpanderOutputPin.new dev0 GPIOBank.Bank1 0 PinState.Low).2
        GPIOBank.Bank1 0 (by decide)).2 PinState.Low
        { bank := GPIOBank.Bank1, pin := 0 } rfl).2.1⟩

/-- C3: in every successful run of OutputPin::new and of
into_output_pin on an input pin, the call's device trace is exactly:
read the output register, write the output register with the bit at the
index set or cleared per the requested state, read the configuration
register, write the configuration register; so the output-register
write is issued strictly before the configuration-register write and no
configuration-register write precedes the output-register write. -/
theorem output_write_precedes_configuration_write {E : Type}
    (d d' : DevState E) (b : GPIOBank) (i : Nat) (s : PinState)
    (q : ExpanderOutputPin) (hi : i < 8) :
    (ExpanderOutputPin.new d b i s = (Outcome.ok q, d') →
      d'.trace = d.trace ++
        [DevAction.readAct (outputRegister b),
         DevAction.writeAct (outputRegister b)
           (seedVal s (d.regs (outputRegister b)) i),
         DevAction.readAct (configurationRegister b),
         DevAction.writeAct (configurationRegister b)
           (d.regs (configurationRegister b) &&& (255 ^^^ (0x01 <<< i)))] ∧
      (seedVal s (d.regs (outputRegister b)) i).testBit i = pinStateBit s ∧
      (d.regs (configurationRegister b) &&&
        (255 ^^^ (0x01 <<< i))).testBit i = false) ∧
    (∀ p : ExpanderInputPin, p.bank = b → p.pin = i →
      p.into_output_pin s d = (Except.ok q, d') →
      d'.trace = d.trace ++
        [DevAction.readAct (outputRegister b),
         DevAction.writeAct (outputRegister b)
           (seedVal s (d.regs (outputRegister b)) i),
         DevAction.readAct (configurationRegister b),
         DevAction.writeAct (configurationRegister b)
           (d.regs (configurationRegister b) &&& (255 ^^^ (0x01 <<< i)))] ∧
      (seedVal s (d.regs (outputRegister b)) i).testBit i = pinStateBit s ∧
      (d.regs (configurationRegister b) &&&
        (255 ^^^ (0x01 <<< i))).testBit i = false) := by
  constructor
  · intro h
    obtain ⟨-, hd⟩ := outputPin_new_ok hi h
    exact ⟨by rw [hd], testBit_seedVal_self s _ i hi,
      testBit_and_notMask_self _ _ hi⟩
  · intro p hb hp h
    obtain ⟨-, hd⟩ := into_output_pin_ok h
    subst hb
    subst hp
    exact ⟨by rw [hd], testBit_seedVal_self s _ p.pin hi,
      testBit_and_notMask_self _ _ hi⟩

/-- C3 witness: the spec scenario, OutputPin::new on bank 1, index 0,
state Low, run on a fault-free device: the trace shows the
output-register write strictly before the configuration-register
write. -/
theorem output_write_precedes_configuration_write_witness :
    (ExpanderOutputPin.new dev0 GPIOBank.Bank1 0 PinState.Low).2.trace =
      [DevAction.readAct (outputRegister GPIOBank.Bank1),
       DevAction.writeAct (outputRegister GPIOBank.Bank1)
         (seedVal PinState.Low (dev0.regs (outputRegister GPIOBank.Bank1)) 0),
       DevAction.readAct (configurationRegister GPIOBank.Bank1),
       DevAction.writeAct (configurationRegister GPIOBank.Bank1)
         (dev0.regs (configurationRegister GPIOBank.Bank1) &&&
           (255 ^^^ (0x01 <<< 0)))] := by
  have h := (output_write_precedes_configuration_write dev0
      (ExpanderOutputPin.new dev0 GPIOBank.Bank1 0 PinState.Low).2
      GPIOBank.Bank1 0 PinState.Low { bank := GPIOBank.Bank1, pin := 0 }
      (by decide)).1 rfl
  rw [h.1]
  rfl

/-- C4: with a fixed input-register byte v returned for both reads and
both reads succeeding, is_high returns the bit of v at the pin index
and is_low returns its negation: the two results are complementary. -/
theorem is_high_is_low_complementary {E : Type} (p : ExpanderInputPin)
    (d1 d2 e1 e2 : DevState E) (v : Nat) (b1 b2 : Bool)
    (hv1 : d1.regs (inputRegister p.bank) = v)
    (hv2 : d2.regs (inputRegister p.bank) = v)
    (hh : p.is_high d1 = (Except.ok b1, e1))
    (hl : p.is_low d2 = (Except.ok b2, e2)) :
    b1 = v.testBit p.pin ∧ b2 = !b1 := by
  obtain ⟨hb1, -⟩ := is_high_ok hh
  obtain ⟨hb2, -⟩ := is_low_ok hl
  rw [hv1] at hb1
  rw [hv2] at hb2
  exact ⟨hb1, by rw [hb1, hb2]⟩

/-- C4 witness: bank 0, index 3, input register 0xF0: is_high returns
false and is_low returns true. -/
theorem is_high_is_low_complementary_witness :
    false = (0xF0 : Nat).testBit 3 ∧ true = !false :=
  is_high_is_low_complementary { bank := GPIOBank.Bank0, pin := 3 } dev0 dev0
    (ExpanderInputPin.is_high { bank := GPIOBank.Bank0, pin := 3 } dev0).2
    (ExpanderInputPin.is_low { bank := GPIOBank.Bank0, pin := 3 } dev0).2
    0xF0 false true rfl rfl rfl rfl

/-- C6: a successful into_output_pin(High) followed by a successful
into_input_pin leaves the bit at the pin index of the bank's
configuration register set and every other bit of that register equal
to its value before the round trip. -/
theorem round_trip_restores_input_configuration {E : Type}
    (p : ExpanderInputPin) (d d1 d2 : DevState E)
    (q : ExpanderOutputPin) (r : ExpanderInputPin)
    (h1 : p.into_output_pin PinState.High d = (Except.ok q, d1))
    (h2 : q.into_input_pin d1 = (Except.ok r, d2)) :
    (d2.regs (configurationRegister p.bank)).testBit p.pin = true ∧
    ∀ j, j < 8 → j ≠ p.pin →
      (d2.regs (configurationRegister p.bank)).testBit j =
      (d.regs (configurationRegister p.bank)).testBit j := by
  obtain ⟨hq, hd1⟩ := into_output_pin_ok h1
  obtain ⟨-, hd2⟩ := out_into_input_pin_ok h2
  subst hq
  have hc1 : d1.regs (configurationRegister p.bank) =
      d.regs (configurationRegister p.bank) &&& (255 ^^^ (0x01 <<< p.pin)) := by
    rw [hd1]
    simp
  have hc2 : d2.regs (configurationRegister p.bank) =
      d1.regs (configurationRegister p.bank) ||| (0x01 <<< p.pin) := by
    rw [hd2]
    simp
  rw [hc2, hc1]
  refine ⟨testBit_or_mask_self _ _, ?_⟩
  intro j hj hne
  rw [testBit_or_mask_other _ _ _ hne, testBit_and_notMask_other _ _ _ hj hne]

/-- C6 witness: the round trip on bank 0, index 3, starting from a
fault-free device whose registers hold 0xF0. -/
theorem round_trip_restores_input_configuration_witness :
    (((ExpanderOutputPin.into_input_pin
        { bank := GPIOBank.Bank0, pin := 3 }
        (ExpanderInputPin.into_output_pin
          { bank := GPIOBank.Bank0, pin := 3 } PinState.High dev0).2).2.regs
      (configurationRegister GPIOBank.Bank0)).testBit 3 = true) :=
  (round_trip_restores_input_configuration
    { bank := GPIOBank.Bank0, pin := 3 } dev0
    (ExpanderInputPin.into_output_pin
      { bank := GPIOBank.Bank0, pin := 3 } PinState.High dev0).2
    (ExpanderOutputPin.into_input_pin { bank := GPIOBank.Bank0, pin := 3 }
      (ExpanderInputPin.into_output_pin
        { bank := GPIOBank.Bank0, pin := 3 } PinState.High dev0).2).2
    { bank := GPIOBank.Bank0, pin := 3 }
    { bank := GPIOBank.Bank0, pin := 3 } rfl rfl).1

/-- C7: a successful into_input_pin on an output pin performs exactly
one read-modify-write of the bank's configuration register, setting the
bit at the pin index and leaving the other bits of the written byte
equal to the value read; it touches no other register and returns an
input pin with the same bank and index. -/
theorem into_input_pin_single_rmw {E : Type} (p : ExpanderOutputPin)
    (d d' : DevState E) (r : ExpanderInputPin)
    (h : p.into_input_pin d = (Except.ok r, d')) :
    r.bank = p.bank ∧ r.pin = p.pin ∧
    d'.trace = d.trace ++
      [DevAction.readAct (configurationRegister p.bank),
       DevAction.writeAct (configurationRegister p.bank)
         (d.regs (configurationRegister p.bank) ||| (0x01 <<< p.pin))] ∧
    (d'.regs (configurationRegister p.bank)).testBit p.pin = true ∧
    (∀ j, j ≠ p.pin →
      (d'.regs (configurationRegister p.bank)).testBit j =
      (d.regs (configurationRegister p.bank)).testBit j) ∧
    (∀ reg, reg ≠ configurationRegister p.bank → d'.regs reg = d.regs reg) := by
  obtain ⟨hr, hd⟩ := out_into_input_pin_ok h
  subst hr
  have hc : d'.regs (configurationRegister p.bank) =
      d.regs (configurationRegister p.bank) ||| (0x01 <<< p.pin) := by
    rw [hd]
    simp
  refine ⟨rfl, rfl, by rw [hd], ?_, ?_, ?_⟩
  · rw [hc]
    exact testBit_or_mask_self _ _
  · intro j hne
    rw [hc]
    exact testBit_or_mask_other _ _ _ hne
  · intro reg hne
    rw [hd]
    simp [hne]

/-- C7 witness: into_input_pin on bank 1, index 5, on a fault-free
device: the configuration bit becomes set and the output registers are
untouched. -/
theorem into_input_pin_single_rmw_witness :
    ((ExpanderOutputPin.into_input_pin { bank := GPIOBank.Bank1, pin := 5 }
        dev0).2.regs (configurationRegister GPIOBank.Bank1)).testBit 5 =
      true ∧
    (ExpanderOutputPin.into_input_pin { bank := GPIOBank.Bank1, pin := 5 }
        dev0).2.regs Register.OutputPort1 = dev0.regs Register.OutputPort1 :=
  ⟨(into_input_pin_single_rmw { bank := GPIOBank.Bank1, pin := 5 } dev0
      (ExpanderOutputPin.into_input_pin { bank := GPIOBank.Bank1, pin := 5 }
        dev0).2 { bank := GPIOBank.Bank1, pin := 5 } rfl).2.2.2.1,
   (into_input_pin_single_rmw { bank := GPIOBank.Bank1, pin := 5 } dev0
      (ExpanderOutputPin.into_input_pin { bank := GPIOBank.Bank1, pin := 5 }
        dev0).2 { bank := GPIOBank.Bank1, pin := 5 } rfl).2.2.2.2.2
      Register.OutputPort1 (by decide)⟩

/-- C8: set_polarity(Inverse) sets the bit at the pin index of the
bank's polarity register and set_polarity(Normal) clears it, in both
cases leaving the other bits of the byte written equal to the byte
read; the composition Inverse then Normal therefore restores a bit that
was originally clear and leaves all other bits of the register at their
original values. -/
theorem set_polarity_round_trip {E : Type} (p : ExpanderInputPin)
    (hp : p.pin < 8) (d d1 d2 : DevState E)
    (h1 : p.set_polarity Polarity.Inverse d = (Except.ok (), d1))
    (h2 : p.set_polarity Polarity.Normal d1 = (Except.ok (), d2)) :
    ((d.regs (polarityRegister p.bank)).testBit p.pin = false →
      (d2.regs (polarityRegister p.bank)).testBit p.pin = false) ∧
    (∀ j, j < 8 → j ≠ p.pin →
      (d2.regs (polarityRegister p.bank)).testBit j =
      (d.regs (polarityRegister p.bank)).testBit j) ∧
    (d1.regs (polarityRegister p.bank)).testBit p.pin = true ∧
    (∀ j, j < 8 → j ≠ p.pin →
      (d1.regs (polarityRegister p.bank)).testBit j =
      (d.regs (polarityRegister p.bank)).testBit j) ∧
    (d2.regs (polarityRegister p.bank)).testBit p.pin = false := by
  have hd1 := set_polarity_ok h1
  have hd2 := set_polarity_ok h2
  have hp1 : d1.regs (polarityRegister p.bank) =
      d.regs (polarityRegister p.bank) ||| (0x01 <<< p.pin) := by
    rw [hd1]
    simp [polVal]
  have hp2 : d2.regs (polarityRegister p.bank) =
      d1.regs (polarityRegister p.bank) &&& (255 ^^^ (0x01 <<< p.pin)) := by
    rw [hd2]
    simp [polVal]
  refine ⟨fun _ => ?_, ?_, ?_, ?_, ?_⟩
  · rw [hp2]
    exact testBit_and_notMask_self _ _ hp
  · intro j hj hne
    rw [hp2, hp1, testBit_and_notMask_other _ _ _ hj hne,
      testBit_or_mask_other _ _ _ hne]
  · rw [hp1]
    exact testBit_or_mask_self _ _
  · intro j hj hne
    rw [hp1]
    exact testBit_or_mask_other _ _ _ hne
  · rw [hp2]
    exact testBit_and_notMask_self _ _ hp

/-- C8 witness: Inverse then Normal on bank 0, index 2, on a fault-free
device whose polarity register holds 0xF0 (bit 2 clear): the final bit
is clear again. -/
theorem set_polarity_round_trip_witness :
    ((ExpanderInputPin.set_polarity { bank := GPIOBank.Bank0, pin := 2 }
        Polarity.Normal
        (ExpanderInputPin.set_polarity { bank := GPIOBank.Bank0, pin := 2 }
          Polarity.Inverse dev0).2).2.regs
      (polarityRegister GPIOBank.Bank0)).testBit 2 = false :=
  (set_polarity_round_trip { bank := GPIOBank.Bank0, pin := 2 } (by decide)
    dev0
    (ExpanderInputPin.set_polarity { bank := GPIOBank.Bank0, pin := 2 }
      Polarity.Inverse dev0).2
    (ExpanderInputPin.set_polarity { bank := GPIOBank.Bank0, pin := 2 }
      Polarity.Normal
      (ExpanderInputPin.set_polarity { bank := GPIOBank.Bank0, pin := 2 }
        Polarity.Inverse dev0).2).2 rfl rfl).2.2.2.2

/-- C1: refutation at a concrete input.  On a fault-free device whose
registers all hold 0xF0, set_high on bank 0 pin 0 reads and writes the
input-level register InputPort0 and leaves the output-level register
OutputPort0 unchanged, while set_low on the same pin read-modify-writes
OutputPort0 as the claim describes for both operations. -/
theorem set_high_targets_input_register :
    (ExpanderOutputPin.set_high { bank := GPIOBank.Bank0, pin := 0 } dev0).1 =
      Except.ok () ∧
    (ExpanderOutputPin.set_high { bank := GPIOBank.Bank0, pin := 0 }
        dev0).2.trace =
      [DevAction.readAct Register.InputPort0,
       DevAction.writeAct Register.InputPort0 0xF1] ∧
    (ExpanderOutputPin.set_high { bank := GPIOBank.Bank0, pin := 0 }
        dev0).2.regs Register.OutputPort0 = 0xF0 ∧
    (ExpanderOutputPin.set_high { bank := GPIOBank.Bank0, pin := 0 }
        dev0).2.regs Register.InputPort0 = 0xF1 ∧
    (ExpanderOutputPin.set_low { bank := GPIOBank.Bank0, pin := 0 }
        dev0).2.trace =
      [DevAction.readAct Register.OutputPort0,
       DevAction.writeAct Register.OutputPort0 0xF0] :=
  ⟨rfl, rfl, rfl, rfl, rfl⟩

/-- C5: for every device state and bank, both constructors return the
assert failure with the device untouched for any index at least 8
(no register access and no recoverable error value), and for any index
below 8 the contract check passes: the result is never the assert
failure. -/
theorem constructors_reject_out_of_range_index {E : Type} (d : DevState E)
    (b : GPIOBank) (s : PinState) :
    (∀ i, 8 ≤ i →
      ExpanderInputPin.new d b i = (Outcome.assertFailed, d) ∧
      ExpanderOutputPin.new d b i s = (Outcome.assertFailed, d)) ∧
    (∀ i, i < 8 →
      (ExpanderInputPin.new d b i).1 ≠ Outcome.assertFailed ∧
      (ExpanderOutputPin.new d b i s).1 ≠ Outcome.assertFailed) := by
  constructor
  · intro i hi
    constructor
    · rw [ExpanderInputPin.new, if_neg (by omega)]
    · rw [ExpanderOutputPin.new, if_neg (by omega)]
  · intro i hi
    constructor
    · rw [ExpanderInputPin.new, if_pos hi]
      rcases h0 : d.failAt d.step with _ | e
      · rcases h1 : d.failAt (d.step + 1) with _ | e
        · simp [read_byte, write_byte, h0, h1]
        · simp [read_byte, write_byte, h0, h1]
      · simp [read_byte, h0]
    · rw [ExpanderOutputPin.new, if_pos hi]
      simp only [ite_seed_write]
      rcases h0 : d.failAt d.step with _ | e
      · rcases h1 : d.failAt (d.step + 1) with _ | e
        · rcases h2 : d.failAt (d.step + 1 + 1) with _ | e
          · rcases h3 : d.failAt (d.step + 1 + 1 + 1) with _ | e
            · simp [read_byte, write_byte, h0, h1, h2, h3]
            · simp [read_byte, write_byte, h0, h1, h2, h3]
          · simp [read_byte, write_byte, h0, h1, h2]
        · simp [read_byte, write_byte, h0, h1]
      · simp [read_byte, h0]

/-- C5 witness: index 8 fails the contract check on a concrete device
and index 3 passes it. -/
theorem constructors_reject_out_of_range_index_witness :
    8 ≤ 8 ∧
    ExpanderInputPin.new dev0 GPIOBank.Bank0 8 = (Outcome.assertFailed, dev0) ∧
    (ExpanderInputPin.new dev0 GPIOBank.Bank0 3).1 ≠ Outcome.assertFailed :=
  ⟨by decide,
   ((constructors_reject_out_of_range_index dev0 GPIOBank.Bank0
       PinState.High).1 8 (by decide)).1,
   ((constructors_reject_out_of_range_index dev0 GPIOBank.Bank0
       PinState.High).2 3 (by decide)).1⟩

/-- C10: is_high and is_low perform exactly one register read and never
write: every register keeps its value on success and on failure alike;
on success the trace gains exactly one read of the bank's input
register, and on a failed read it gains nothing. -/
theorem level_reads_leave_registers_unchanged {E : Type}
    (p : ExpanderInputPin) (d : DevState E) :
    ((p.is_high d).2.regs = d.regs ∧ (p.is_low d).2.regs = d.regs) ∧
    (d.failAt d.step = none →
      (p.is_high d).2.trace =
        d.trace ++ [DevAction.readAct (inputRegister p.bank)] ∧
      (p.is_low d).2.trace =
        d.trace ++ [DevAction.readAct (inputRegister p.bank)]) ∧
    (∀ e, d.failAt d.step = some e →
      (p.is_high d).2.trace = d.trace ∧ (p.is_low d).2.trace = d.trace) := by
  rcases h0 : d.failAt d.step with _ | e
  · have hhigh : (p.is_high d).2 =
        { d with
            step := d.step + 1
            trace := d.trace ++ [DevAction.readAct (inputRegister p.bank)] } := by
      rw [ExpanderInputPin.is_high]
      simp only [read_byte, h0]
      rcases ht : (d.regs (inputRegister p.bank)).testBit p.pin
      · have hv : (d.regs (inputRegister p.bank) >>> p.pin) &&& 1 = 0 := by
          rw [shiftRight_and_one, ht]
          simp
        rw [hv]
      · have hv : (d.regs (inputRegister p.bank) >>> p.pin) &&& 1 = 1 := by
          rw [shiftRight_and_one, ht]
          simp
        rw [hv]
    have hlow : (p.is_low d).2 =
        { d with
            step := d.step + 1
            trace := d.trace ++ [DevAction.readAct (inputRegister p.bank)] } := by
      rw [ExpanderInputPin.is_low]
      simp only [read_byte, h0]
      rcases ht : (d.regs (inputRegister p.bank)).testBit p.pin
      · have hv : (d.regs (inputRegister p.bank) >>> p.pin) &&& 1 = 0 := by
          rw [shiftRight_and_one, ht]
          simp
        rw [hv]
      · have hv : (d.regs (inputRegister p.bank) >>> p.pin) &&& 1 = 1 := by
          rw [shiftRight_and_one, ht]
          simp
        rw [hv]
    exact ⟨⟨by rw [hhigh], by rw [hlow]⟩,
      fun _ => ⟨by rw [hhigh], by rw [hlow]⟩,
      fun e he => absurd he (by simp [h0])⟩
  · have hhigh : (p.is_high d).2 = { d with step := d.step + 1 } := by
      rw [ExpanderInputPin.is_high]
      simp [read_byte, h0]
    have hlow : (p.is_low d).2 = { d with step := d.step + 1 } := by
      rw [ExpanderInputPin.is_low]
      simp [read_byte, h0]
    exact ⟨⟨by rw [hhigh], by rw [hlow]⟩,
      fun hn => absurd hn (by simp [h0]),
      fun e2 he => ⟨by rw [hhigh], by rw [hlow]⟩⟩

/-- C10 witness: a concrete successful read on bank 0 pin 3 leaves the
registers untouched and appends exactly one read action. -/
theorem level_reads_leave_registers_unchanged_witness :
    (ExpanderInputPin.is_high { bank := GPIOBank.Bank0, pin := 3 }
        dev0).2.regs = dev0.regs ∧
    (ExpanderInputPin.is_high { bank := GPIOBank.Bank0, pin := 3 }
        dev0).2.trace =
      dev0.trace ++ [DevAction.readAct (inputRegister GPIOBank.Bank0)] :=
  ⟨(level_reads_leave_registers_unchanged
      { bank := GPIOBank.Bank0, pin := 3 } dev0).1.1,
   ((level_reads_leave_registers_unchanged
      { bank := GPIOBank.Bank0, pin := 3 } dev0).2.1 rfl).1⟩

/-- C9: every pin operation propagates a device error unchanged from
whichever register access fails, performs no further register access
after the failure (the access counter advances only past the failed
access and the trace lists exactly the earlier successful accesses),
and does not roll back registers already written in the same operation
(the seeding write, when it succeeded, is still in force in the final
register state). -/
theorem device_errors_propagate_unchanged {E : Type} (d : DevState E)
    (e : E) (b : GPIOBank) (i : Nat) (s : PinState) (pol : Polarity)
    (pIn : ExpanderInputPin) (pOut : ExpanderOutputPin) (hi : i < 8) :
    (d.failAt d.step = some e →
      ExpanderInputPin.new d b i =
        (Outcome.err e, { d with step := d.step + 1 })) ∧
    (d.failAt d.step = none → d.failAt (d.step + 1) = some e →
      ExpanderInputPin.new d b i =
        (Outcome.err e,
          { d with
              step := d.step + 1 + 1
              trace := d.trace ++
                [DevAction.readAct (configurationRegister b)] })) ∧
    (d.failAt d.step = some e →
      ExpanderOutputPin.new d b i s =
        (Outcome.err e, { d with step := d.step + 1 })) ∧
    (d.failAt d.step = none → d.failAt (d.step + 1) = some e →
      ExpanderOutputPin.new d b i s =
        (Outcome.err e,
          { d with
              step := d.step + 1 + 1
              trace := d.trace ++ [DevAction.readAct (outputRegister b)] })) ∧
    (d.failAt d.step = none → d.failAt (d.step + 1) = none →
      d.failAt (d.step + 1 + 1) = some e →
      ExpanderOutputPin.new d b i s =
        (Outcome.err e,
          { d with
              regs := fun r => if r = outputRegister b then
                         seedVal s (d.regs (outputRegister b)) i
                       else d.regs r
              step := d.step + 1 + 1 + 1
              trace := d.trace ++
                [DevAction.readAct (outputRegister b),
                 DevAction.writeAct (outputRegister b)
                   (seedVal s (d.regs (outputRegister b)) i)] })) ∧
    (d.failAt d.step = none → d.failAt (d.step + 1) = none →
      d.failAt (d.step + 1 + 1) = none →
      d.failAt (d.step + 1 + 1 + 1) = some e →
      ExpanderOutputPin.new d b i s =
        (Outcome.err e,
          { d with
              regs := fun r => if r = outputRegister b then
                         seedVal s (d.regs (outputRegister b)) i
                       else d.regs r
              step := d.step + 1 + 1 + 1 + 1
              trace := d.trace ++
                [DevAction.readAct (outputRegister b),
                 DevAction.writeAct (outputRegister b)
                   (seedVal s (d.regs (outputRegister b)) i),
                 DevAction.readAct (configurationRegister b)] })) ∧
    (d.failAt d.step = some e →
      pIn.set_polarity pol d =
        (Except.error e, { d with step := d.step + 1 })) ∧
    (d.failAt d.step = none → d.failAt (d.step + 1) = some e →
      pIn.set_polarity pol d =
        (Except.error e,
          { d with
              step := d.step + 1 + 1
              trace := d.trace ++
                [DevAction.readAct (polarityRegister pIn.bank)] })) ∧
    (d.failAt d.step = some e →
      pIn.is_high d = (Except.error e, { d with step := d.step + 1 })) ∧
    (d.failAt d.step = some e →
      pIn.is_low d = (Except.error e, { d with step := d.step + 1 })) ∧
    (d.failAt d.step = some e →
      pOut.set_high d = (Except.error e, { d with step := d.step + 1 })) ∧
    (d.failAt d.step = none → d.failAt (d.step + 1) = some e →
      pOut.set_high d =
        (Except.error e,
          { d with
              step := d.step + 1 + 1
              trace := d.trace ++
                [DevAction.readAct (inputRegister pOut.bank)] })) ∧
    (d.failAt d.step = some e →
      pOut.set_low d = (Except.error e, { d with step := d.step + 1 })) ∧
    (d.failAt d.step = none → d.failAt (d.step + 1) = some e →
      pOut.set_low d =
        (Except.error e,
          { d with
              step := d.step + 1 + 1
              trace := d.trace ++
                [DevAction.readAct (outputRegister pOut.bank)] })) ∧
    (d.failAt d.step = some e →
      pIn.into_output_pin s d =
        (Except.error e, { d with step := d.step + 1 })) ∧
    (d.failAt d.step = none → d.failAt (d.step + 1) = some e →
      pIn.into_output_pin s d =
        (Except.error e,
          { d with
              step := d.step + 1 + 1
              trace := d.trace ++
                [DevAction.readAct (outputRegister pIn.bank)] })) ∧
    (d.failAt d.step = none → d.failAt (d.step + 1) = none →
      d.failAt (d.step + 1 + 1) = some e →
      pIn.into_output_pin s d =
        (Except.error e,
          { d with
              regs := fun r => if r = outputRegister pIn.bank then
                         seedVal s (d.regs (outputRegister pIn.bank)) pIn.pin
                       else d.regs r
              step := d.step + 1 + 1 + 1
              trace := d.trace ++
                [DevAction.readAct (outputRegister pIn.bank),
                 DevAction.writeAct (outputRegister pIn.bank)
                   (seedVal s (d.regs (outputRegister pIn.bank)) pIn.pin)] })) ∧
    (d.failAt d.step = none → d.failAt (d.step + 1) = none →
      d.failAt (d.step + 1 + 1) = none →
      d.failAt (d.step + 1 + 1 + 1) = some e →
      pIn.into_output_pin s d =
        (Except.error e,
          { d with
              regs := fun r => if r = outputRegister pIn.bank then
                         seedVal s (d.regs (outputRegister pIn.bank)) pIn.pin
                       else d.regs r
              step := d.step + 1 + 1 + 1 + 1
              trace := d.trace ++
                [DevAction.readAct (outputRegister pIn.bank),
                 DevAction.writeAct (outputRegister pIn.bank)
                   (seedVal s (d.regs (outputRegister pIn.bank)) pIn.pin),
                 DevAction.readAct (configurationRegister pIn.bank)] })) ∧
    (d.failAt d.step = some e →
      pOut.into_input_pin d =
        (Except.error e, { d with step := d.step + 1 })) ∧
    (d.failAt d.step = none → d.failAt (d.step + 1) = some e →
      pOut.into_input_pin d =
        (Except.error e,
          { d with
              step := d.step + 1 + 1
              trace := d.trace ++
                [DevAction.readAct (configurationRegister pOut.bank)] })) ∧
    (d.failAt d.step = some e →
      pOut.into_output_pin s d =
        (Except.error e, { d with step := d.step + 1 })) ∧
    (d.failAt d.step = none → d.failAt (d.step + 1) = some e →
      pOut.into_output_pin s d =
        (Except.error e,
          { d with
              step := d.step + 1 + 1
              trace := d.trace ++
                [DevAction.readAct (outputRegister pOut.bank)] })) := by
  refine ⟨?_, ?_, ?_, ?_, ?_, ?_, ?_, ?_, ?_, ?_, ?_, ?_, ?_, ?_, ?_, ?_,
    ?_, ?_, ?_, ?_, ?_, ?_⟩
  · intro h0
    rw [ExpanderInputPin.new, if_pos hi]
    simp [read_byte, h0]
  · intro h0 h1
    rw [ExpanderInputPin.new, if_pos hi]
    simp [read_byte, write_byte, h0, h1]
  · intro h0
    rw [ExpanderOutputPin.new, if_pos hi]
    simp only [ite_seed_write]
    simp [read_byte, h0]
  · intro h0 h1
    rw [ExpanderOutputPin.new, if_pos hi]
    simp only [ite_seed_write]
    simp [read_byte, write_byte, h0, h1]
  · intro h0 h1 h2
    rw [ExpanderOutputPin.new, if_pos hi]
    simp only [ite_seed_write]
    simp [read_byte, write_byte, h0, h1, h2, List.append_assoc]
  · intro h0 h1 h2 h3
    rw [ExpanderOutputPin.new, if_pos hi]
    simp only [ite_seed_write]
    simp [read_byte, write_byte, h0, h1, h2, h3, List.append_assoc]
  · intro h0
    rw [ExpanderInputPin.set_polarity]
    simp only [ite_pol_write]
    simp [read_byte, h0]
  · intro h0 h1
    rw [ExpanderInputPin.set_polarity]
    simp only [ite_pol_write]
    simp [read_byte, write_byte, h0, h1]
  · intro h0
    rw [ExpanderInputPin.is_high]
    simp [read_byte, h0]
  · intro h0
    rw [ExpanderInputPin.is_low]
    simp [read_byte, h0]
  · intro h0
    rw [ExpanderOutputPin.set_high]
    simp [read_byte, h0]
  · intro h0 h1
    rw [ExpanderOutputPin.set_high]
    simp [read_byte, write_byte, h0, h1]
  · intro h0
    rw [ExpanderOutputPin.set_low]
    simp [read_byte, h0]
  · intro h0 h1
    rw [ExpanderOutputPin.set_low]
    simp [read_byte, write_byte, h0, h1]
  · intro h0
    rw [ExpanderInputPin.into_output_pin]
    simp only [ite_seed_write]
    simp [read_byte, h0]
  · intro h0 h1
    rw [ExpanderInputPin.into_output_pin]
    simp only [ite_seed_write]
    simp [read_byte, write_byte, h0, h1]
  · intro h0 h1 h2
    rw [ExpanderInputPin.into_output_pin]
    simp only [ite_seed_write]
    simp [read_byte, write_byte, h0, h1, h2, List.append_assoc]
  · intro h0 h1 h2 h3
    rw [ExpanderInputPin.into_output_pin]
    simp only [ite_seed_write]
    simp [read_byte, write_byte, h0, h1, h2, h3, List.append_assoc]
  · intro h0
    rw [ExpanderOutputPin.into_input_pin]
    simp [read_byte, h0]
  · intro h0 h1
    rw [ExpanderOutputPin.into_input_pin]
    simp [read_byte, write_byte, h0, h1]
  · intro h0
    rw [ExpanderOutputPin.into_output_pin]
    simp only [ite_seed_write]
    simp [read_byte, h0]
  · intro h0 h1
    rw [ExpanderOutputPin.into_output_pin]
    simp only [ite_seed_write]
    simp [read_byte, write_byte, h0, h1]

/-- C9 witness: on a device whose every access fails with the unit
error, a constructor and a setter each return that error with the
access counter advanced exactly once and nothing written. -/
theorem device_errors_propagate_unchanged_witness :
    ExpanderInputPin.new devFail GPIOBank.Bank0 3 =
      (Outcome.err (), { devFail with step := devFail.step + 1 }) ∧
    ExpanderOutputPin.set_low { bank := GPIOBank.Bank1, pin := 0 } devFail =
      (Except.error (), { devFail with step := devFail.step + 1 }) :=
  ⟨(device_errors_propagate_unchanged devFail () GPIOBank.Bank0 3
      PinState.High Polarity.Normal { bank := GPIOBank.Bank0, pin := 3 }
      { bank := GPIOBank.Bank1, pin := 0 } (by decide)).1 rfl,
   (device_errors_propagate_unchanged devFail () GPIOBank.Bank0 3
      PinState.High Polarity.Normal { bank := GPIOBank.Bank0, pin := 3 }
      { bank := GPIOBank.Bank1, pin := 0 }
      (by decide)).2.2.2.2.2.2.2.2.2.2.2.2.1 rfl⟩

end Pca9535
